import Mathlib

/-
Verification of the numerical core of the Dynamics-Of-Celestial-Bodies
repository: a fixed-step classical RK4 integrator applied to a free-fall
model, a two-body Newtonian gravitation model, and a three-body Newtonian
gravitation model, plus two UI-layer helpers from TwoBodies.py.

The solver drivers Earth2DModelSolver, CoupledTwoBodySolver and
CoupledThreeBodySolver are embedded from ModelFunctions.py.  The module
Models.py that defines RK42nd, RK4TwoBody, RK4ThreeBody, Earth2DForceModel,
TwoCoupledBodies and ThreeCoupledBodies is not part of the available source
tree; those definitions are modelled from the specification (each carries a
doc comment saying so).  Real arithmetic is modelled by the exact reals.  A
second scalar type, FV.FVal, extends the reals with one absorbing
non-finite element in order to express the specified propagation of
division-by-zero results through the integration.
-/

/-- A 3-vector of reals, one body's position or velocity. -/
structure V3 where
  x : ℝ
  y : ℝ
  z : ℝ

instance : Add V3 :=
  ⟨fun a b => ⟨a.x + b.x, a.y + b.y, a.z + b.z⟩⟩

instance : SMul ℝ V3 :=
  ⟨fun c a => ⟨c * a.x, c * a.y, c * a.z⟩⟩

instance : Zero V3 :=
  ⟨⟨0, 0, 0⟩⟩

@[simp]
theorem V3.v3_add_x (a b : V3) : (a + b).x = a.x + b.x := rfl

@[simp]
theorem V3.v3_add_y (a b : V3) : (a + b).y = a.y + b.y := rfl

@[simp]
theorem V3.v3_add_z (a b : V3) : (a + b).z = a.z + b.z := rfl

@[simp]
theorem V3.v3_smul_x (c : ℝ) (a : V3) : (c • a).x = c * a.x := rfl

@[simp]
theorem V3.v3_smul_y (c : ℝ) (a : V3) : (c • a).y = c * a.y := rfl

@[simp]
theorem V3.v3_smul_z (c : ℝ) (a : V3) : (c • a).z = c * a.z := rfl

@[simp]
theorem V3.zero_x : (0 : V3).x = 0 := rfl

@[simp]
theorem V3.zero_y : (0 : V3).y = 0 := rfl

@[simp]
theorem V3.zero_z : (0 : V3).z = 0 := rfl

theorem V3.ext_iff (a b : V3) : a = b ↔ a.x = b.x ∧ a.y = b.y ∧ a.z = b.z := by
  constructor
  · intro h
    subst h
    exact ⟨rfl, rfl, rfl⟩
  · intro h
    cases a
    cases b
    simp only at h
    obtain ⟨h1, h2, h3⟩ := h
    subst h1
    subst h2
    subst h3
    rfl

/-- The 12-dimensional state of the two-body system: two positions and two
velocities, each a 3-vector.  The slot names give the fixed indexing
contract between the force model and the stepper; in a derivative vector
the p-slots hold velocities and the v-slots hold accelerations. -/
structure TBState where
  p1 : V3
  p2 : V3
  v1 : V3
  v2 : V3

instance : Add TBState :=
  ⟨fun a b => ⟨a.p1 + b.p1, a.p2 + b.p2, a.v1 + b.v1, a.v2 + b.v2⟩⟩

instance : SMul ℝ TBState :=
  ⟨fun c a => ⟨c • a.p1, c • a.p2, c • a.v1, c • a.v2⟩⟩

@[simp]
theorem TBState.tb_add_p1 (a b : TBState) : (a + b).p1 = a.p1 + b.p1 := rfl

@[simp]
theorem TBState.tb_add_p2 (a b : TBState) : (a + b).p2 = a.p2 + b.p2 := rfl

@[simp]
theorem TBState.tb_add_v1 (a b : TBState) : (a + b).v1 = a.v1 + b.v1 := rfl

@[simp]
theorem TBState.tb_add_v2 (a b : TBState) : (a + b).v2 = a.v2 + b.v2 := rfl

@[simp]
theorem TBState.tb_smul_p1 (c : ℝ) (a : TBState) : (c • a).p1 = c • a.p1 := rfl

@[simp]
theorem TBState.tb_smul_p2 (c : ℝ) (a : TBState) : (c • a).p2 = c • a.p2 := rfl

@[simp]
theorem TBState.tb_smul_v1 (c : ℝ) (a : TBState) : (c • a).v1 = c • a.v1 := rfl

@[simp]
theorem TBState.tb_smul_v2 (c : ℝ) (a : TBState) : (c • a).v2 = c • a.v2 := rfl

/-- The 18-dimensional state of the three-body system. -/
structure ThBState where
  p1 : V3
  p2 : V3
  p3 : V3
  v1 : V3
  v2 : V3
  v3 : V3

instance : Add ThBState :=
  ⟨fun a b => ⟨a.p1 + b.p1, a.p2 + b.p2, a.p3 + b.p3, a.v1 + b.v1, a.v2 + b.v2, a.v3 + b.v3⟩⟩

instance : SMul ℝ ThBState :=
  ⟨fun c a => ⟨c • a.p1, c • a.p2, c • a.p3, c • a.v1, c • a.v2, c • a.v3⟩⟩

@[simp]
theorem ThBState.th_add_p1 (a b : ThBState) : (a + b).p1 = a.p1 + b.p1 := rfl

@[simp]
theorem ThBState.th_add_p2 (a b : ThBState) : (a + b).p2 = a.p2 + b.p2 := rfl

@[simp]
theorem ThBState.th_add_p3 (a b : ThBState) : (a + b).p3 = a.p3 + b.p3 := rfl

@[simp]
theorem ThBState.th_add_v1 (a b : ThBState) : (a + b).v1 = a.v1 + b.v1 := rfl

@[simp]
theorem ThBState.th_add_v2 (a b : ThBState) : (a + b).v2 = a.v2 + b.v2 := rfl

@[simp]
theorem ThBState.th_add_v3 (a b : ThBState) : (a + b).v3 = a.v3 + b.v3 := rfl

@[simp]
theorem ThBState.th_smul_p1 (c : ℝ) (a : ThBState) : (c • a).p1 = c • a.p1 := rfl

@[simp]
theorem ThBState.th_smul_p2 (c : ℝ) (a : ThBState) : (c • a).p2 = c • a.p2 := rfl

@[simp]
theorem ThBState.th_smul_p3 (c : ℝ) (a : ThBState) : (c • a).p3 = c • a.p3 := rfl

@[simp]
theorem ThBState.th_smul_v1 (c : ℝ) (a : ThBState) : (c • a).v1 = c • a.v1 := rfl

@[simp]
theorem ThBState.th_smul_v2 (c : ℝ) (a : ThBState) : (c • a).v2 = c • a.v2 := rfl

@[simp]
theorem ThBState.th_smul_v3 (c : ℝ) (a : ThBState) : (c • a).v3 = c • a.v3 := rfl

/-- Modelled from the spec: the generic classical RK4 step (spec section 4.2).
`Models.py`, which holds the source implementation, is missing from the
available tree.  The step is generic in the scalar type `R` and the state
type `a`; the elementwise state types instantiate `a`, and the
non-finite-propagating scalar model instantiates `R`. -/
def rk4Step {R : Type} {a : Type} [Add a] [SMul R a] [Div R] [OfNat R 2] [OfNat R 6]
    (f : a → a) (h : R) (s : a) : a :=
  let k1 := f s
  let k2 := f (s + (h / 2) • k1)
  let k3 := f (s + (h / 2) • k2)
  let k4 := f (s + h • k3)
  s + (h / 6) • (k1 + (2 : R) • k2 + (2 : R) • k3 + k4)

/-- Modelled from the spec: the discrete trajectory of repeated RK4 steps;
sample `k` is the state after `k` steps from `s0`. -/
def rk4Orbit {R : Type} {a : Type} [Add a] [SMul R a] [Div R] [OfNat R 2] [OfNat R 6]
    (f : a → a) (h : R) (s0 : a) (k : ℕ) : a :=
  (rk4Step f h)^[k] s0

/-- Modelled from the spec: the fixed gravitational acceleration constant of
the free-fall model.  Its numeric value plays no role in any claim. -/
noncomputable def gAccel : ℝ := 9.81

/-- Modelled from the spec: the gravitational constant `G`.  Its numeric
value plays no role in any claim. -/
noncomputable def G : ℝ := 6.6743e-11

/-- Modelled from the spec: the free-fall force model, input
`(height, velocity)`, output `(velocity, -g)` (spec section 4.1). -/
noncomputable def Earth2DForceModel (s : ℝ × ℝ) : ℝ × ℝ :=
  (s.2, -gAccel)

/-- Modelled from the spec: separation distance between two positions,
`|rOther - rThis|`. -/
noncomputable def sep (rThis rOther : V3) : ℝ :=
  Real.sqrt ((rOther.x - rThis.x) ^ 2 + (rOther.y - rThis.y) ^ 2 + (rOther.z - rThis.z) ^ 2)

/-- Modelled from the spec: the pairwise gravitational acceleration term
`G * otherMass * (otherPosition - thisPosition) / |otherPosition - thisPosition|^3`
(spec section 4.1). -/
noncomputable def grav (m : ℝ) (rThis rOther : V3) : V3 :=
  ⟨G * m * (rOther.x - rThis.x) / sep rThis rOther ^ 3,
   G * m * (rOther.y - rThis.y) / sep rThis rOther ^ 3,
   G * m * (rOther.z - rThis.z) / sep rThis rOther ^ 3⟩

/-- Element `massList[i]` of the mass list; out-of-range reads default to 0
and never occur in the solver calls. -/
def mEl (massList : List ℝ) (i : ℕ) : ℝ :=
  massList.getD i 0

/-- Modelled from the spec: the two-body force model.  The derivative of
`(p1, p2, v1, v2)` is `(v1, v2, a1, a2)` with each acceleration given by the
pairwise gravitational term toward the other body (spec section 4.1). -/
noncomputable def TwoCoupledBodies (massList : List ℝ) (s : TBState) : TBState :=
  ⟨s.v1, s.v2, grav (mEl massList 1) s.p1 s.p2, grav (mEl massList 0) s.p2 s.p1⟩

/-- Modelled from the spec: the three-body force model; each body's
acceleration is the sum of the pairwise gravitational terms toward the other
two bodies (spec section 4.1). -/
noncomputable def ThreeCoupledBodies (massList : List ℝ) (s : ThBState) : ThBState :=
  ⟨s.v1, s.v2, s.v3,
   grav (mEl massList 1) s.p1 s.p2 + grav (mEl massList 2) s.p1 s.p3,
   grav (mEl massList 0) s.p2 s.p1 + grav (mEl massList 2) s.p2 s.p3,
   grav (mEl massList 0) s.p3 s.p1 + grav (mEl massList 1) s.p3 s.p2⟩

/-- Entry `ic[i][j]` of the initial-condition matrix; out-of-range reads
default to 0 and never occur in the solver calls. -/
def icG (ic : List (List ℝ)) (i j : ℕ) : ℝ :=
  (ic.getD i []).getD j 0

/-- The initial two-body state read from the initial-condition matrix, rows
`ic[0]`, `ic[1]` the positions and `ic[2]`, `ic[3]` the velocities, exactly
as documented at the `CoupledTwoBodySolver` call site in ModelFunctions.py. -/
def icTB (ic : List (List ℝ)) : TBState :=
  ⟨⟨icG ic 0 0, icG ic 0 1, icG ic 0 2⟩,
   ⟨icG ic 1 0, icG ic 1 1, icG ic 1 2⟩,
   ⟨icG ic 2 0, icG ic 2 1, icG ic 2 2⟩,
   ⟨icG ic 3 0, icG ic 3 1, icG ic 3 2⟩⟩

/-- The initial three-body state read from the initial-condition matrix,
rows `ic[0]`..`ic[2]` the positions and `ic[3]`..`ic[5]` the velocities,
exactly as documented at the `CoupledThreeBodySolver` call site. -/
def icThB (ic : List (List ℝ)) : ThBState :=
  ⟨⟨icG ic 0 0, icG ic 0 1, icG ic 0 2⟩,
   ⟨icG ic 1 0, icG ic 1 1, icG ic 1 2⟩,
   ⟨icG ic 2 0, icG ic 2 1, icG ic 2 2⟩,
   ⟨icG ic 3 0, icG ic 3 1, icG ic 3 2⟩,
   ⟨icG ic 4 0, icG ic 4 1, icG ic 4 2⟩,
   ⟨icG ic 5 0, icG ic 5 1, icG ic 5 2⟩⟩

/-- The number of RK4 steps a driver performs for a time domain and step
size, `(tn - t0) / h` truncated to a natural number.  With
`h = (tn - t0) / stepCount` and `tn` distinct from `t0` this recovers
`stepCount` exactly. -/
noncomputable def stepsOf (t0 tn h : ℝ) : ℕ :=
  (⌊(tn - t0) / h⌋).toNat

/-- The shared sampled-time sequence `t0, t0 + h, ..., t0 + steps * h`. -/
noncomputable def timeSeq (t0 h : ℝ) (steps : ℕ) : List ℝ :=
  (List.range (steps + 1)).map (fun k : ℕ => t0 + (k : ℝ) * h)

/-- Output tuple of `RK42nd`, named after the identifiers the caller in
ModelFunctions.py binds the tuple to. -/
structure FreeFallOutput where
  ypos : List ℝ
  yvelo : List ℝ
  time : List ℝ

/-- Modelled from the spec: `RK42nd`, the free-fall driver from the missing
Models.py.  It advances the `(height, velocity)` pair by RK4 across the time
domain and returns the position, velocity and time sequences, one sample per
step plus the initial sample (spec sections 4.2, 4.5, 8). -/
noncomputable def RK42nd (f : ℝ × ℝ → ℝ × ℝ) (y0 v0 t0 tn h : ℝ) : FreeFallOutput :=
  let steps := stepsOf t0 tn h
  let traj := rk4Orbit f h (y0, v0)
  ⟨(List.range (steps + 1)).map (fun k => (traj k).1),
   (List.range (steps + 1)).map (fun k => (traj k).2),
   timeSeq t0 h steps⟩

/-- Output tuple of `RK4TwoBody`, named after the identifiers the caller in
ModelFunctions.py binds the tuple to.  Position and velocity results are
component-major: a list `[xSeries, ySeries, zSeries]`. -/
structure TwoBodyOutput where
  mass1Pos : List (List ℝ)
  mass2Pos : List (List ℝ)
  mass1Vel : List (List ℝ)
  mass2Vel : List (List ℝ)
  time : List ℝ

/-- Modelled from the spec: `RK4TwoBody`, the two-body driver from the
missing Models.py.  It initializes the 12-dimensional state from the
initial-condition matrix, iterates the RK4 step bound to the given force
model across the time domain, and packages the state history component-major
(spec sections 4.2, 4.3, 6). -/
noncomputable def RK4TwoBody (f : List ℝ → TBState → TBState) (massList : List ℝ)
    (ic : List (List ℝ)) (t0 tn h : ℝ) : TwoBodyOutput :=
  let steps := stepsOf t0 tn h
  let traj := rk4Orbit (f massList) h (icTB ic)
  ⟨[(List.range (steps + 1)).map (fun k => (traj k).p1.x),
    (List.range (steps + 1)).map (fun k => (traj k).p1.y),
    (List.range (steps + 1)).map (fun k => (traj k).p1.z)],
   [(List.range (steps + 1)).map (fun k => (traj k).p2.x),
    (List.range (steps + 1)).map (fun k => (traj k).p2.y),
    (List.range (steps + 1)).map (fun k => (traj k).p2.z)],
   [(List.range (steps + 1)).map (fun k => (traj k).v1.x),
    (List.range (steps + 1)).map (fun k => (traj k).v1.y),
    (List.range (steps + 1)).map (fun k => (traj k).v1.z)],
   [(List.range (steps + 1)).map (fun k => (traj k).v2.x),
    (List.range (steps + 1)).map (fun k => (traj k).v2.y),
    (List.range (steps + 1)).map (fun k => (traj k).v2.z)],
   timeSeq t0 h steps⟩

/-- Output tuple of `RK4ThreeBody`, named after the identifiers the caller
in ModelFunctions.py binds the tuple to. -/
structure ThreeBodyOutput where
  mass1Pos : List (List ℝ)
  mass2Pos : List (List ℝ)
  mass3Pos : List (List ℝ)
  mass1Vel : List (List ℝ)
  mass2Vel : List (List ℝ)
  mass3Vel : List (List ℝ)
  timeVals : List ℝ

/-- Modelled from the spec: `RK4ThreeBody`, the three-body driver from the
missing Models.py, identical in algorithm to `RK4TwoBody` on the
18-dimensional state (spec section 4.4). -/
noncomputable def RK4ThreeBody (f : List ℝ → ThBState → ThBState) (massList : List ℝ)
    (ic : List (List ℝ)) (t0 tn h : ℝ) : ThreeBodyOutput :=
  let steps := stepsOf t0 tn h
  let traj := rk4Orbit (f massList) h (icThB ic)
  ⟨[(List.range (steps + 1)).map (fun k => (traj k).p1.x),
    (List.range (steps + 1)).map (fun k => (traj k).p1.y),
    (List.range (steps + 1)).map (fun k => (traj k).p1.z)],
   [(List.range (steps + 1)).map (fun k => (traj k).p2.x),
    (List.range (steps + 1)).map (fun k => (traj k).p2.y),
    (List.range (steps + 1)).map (fun k => (traj k).p2.z)],
   [(List.range (steps + 1)).map (fun k => (traj k).p3.x),
    (List.range (steps + 1)).map (fun k => (traj k).p3.y),
    (List.range (steps + 1)).map (fun k => (traj k).p3.z)],
   [(List.range (steps + 1)).map (fun k => (traj k).v1.x),
    (List.range (steps + 1)).map (fun k => (traj k).v1.y),
    (List.range (steps + 1)).map (fun k => (traj k).v1.z)],
   [(List.range (steps + 1)).map (fun k => (traj k).v2.x),
    (List.range (steps + 1)).map (fun k => (traj k).v2.y),
    (List.range (steps + 1)).map (fun k => (traj k).v2.z)],
   [(List.range (steps + 1)).map (fun k => (traj k).v3.x),
    (List.range (steps + 1)).map (fun k => (traj k).v3.y),
    (List.range (steps + 1)).map (fun k => (traj k).v3.z)],
   timeSeq t0 h steps⟩

/-- Embedded from ModelFunctions.py lines 18-23: computes
`h = (tn - t0) / 1000` and calls the RK4 solver on the free-fall model. -/
noncomputable def Earth2DModelSolver (ic : List ℝ) (t0 tn : ℝ) : FreeFallOutput :=
  RK42nd Earth2DForceModel (ic.getD 0 0) (ic.getD 1 0) t0 tn ((tn - t0) / 1000)

/-- Embedded from ModelFunctions.py lines 67-72: computes
`h = (tn - t0) / 10000` and calls the RK4 solver on the two-body model. -/
noncomputable def CoupledTwoBodySolver (massList : List ℝ) (ic : List (List ℝ))
    (t0 tn : ℝ) : TwoBodyOutput :=
  RK4TwoBody TwoCoupledBodies massList ic t0 tn ((tn - t0) / 10000)

/-- Embedded from ModelFunctions.py lines 102-107: computes
`h = (tn - t0) / 10000` and calls the RK4 solver on the three-body model. -/
noncomputable def CoupledThreeBodySolver (massList : List ℝ) (ic : List (List ℝ))
    (t0 tn : ℝ) : ThreeBodyOutput :=
  RK4ThreeBody ThreeCoupledBodies massList ic t0 tn ((tn - t0) / 10000)

/-- The post-call bindings of `TwoBodyCanvas.Plot`: the final contents of the
caller's `masses` list together with the series, names and initial-condition
rows the plotting code goes on to use. -/
structure PlotBindings (A B C : Type) where
  masses : List ℚ
  mass1Pos : A
  mass2Pos : A
  mass1Vel : A
  mass2Vel : A
  mass1Name : B
  mass2Name : B
  ic : C × C × C × C

/-- Embedded from TwoBodies.py lines 76-95 (`TwoBodyCanvas.Plot`): the body
swap.  `m1`/`m2` are read from `masses[0]`/`masses[1]`; if `m2 > m1` the
masses list is mutated in place to `[m2, m1]` (modelled by `List.set`) and
the series, names and initial-condition rows are rebound swapped, otherwise
everything is left as is.  The trajectory series are shuffled without being
inspected, so they are typed generically. -/
def TwoBodyCanvasPlotSwap {A B C : Type} (masses : List ℚ)
    (mass1Pos mass2Pos mass1Vel mass2Vel : A) (mass1Name mass2Name : B)
    (ic : C × C × C × C) : PlotBindings A B C :=
  let m1 := masses.getD 0 0
  let m2 := masses.getD 1 0
  if m2 > m1 then
    ⟨(masses.set 0 m2).set 1 m1, mass2Pos, mass1Pos, mass2Vel, mass1Vel,
     mass2Name, mass1Name, (ic.2.1, ic.1, ic.2.2.2, ic.2.2.1)⟩
  else
    ⟨masses, mass1Pos, mass2Pos, mass1Vel, mass2Vel, mass1Name, mass2Name, ic⟩

/-- Embedded from TwoBodies.py lines 1109-1115 (`TwoBodyWindow.IsPositive`):
`if (value): return True else: return False` - Python truthiness of a
number, which is its being nonzero. -/
def IsPositive (value : ℚ) : Bool :=
  if value ≠ 0 then true else false

namespace FV

/-- Modelled from the spec: the scalar type of the degeneracy model.  The
spec states that a division by zero yields a non-finite value
(Infinity/NaN) that propagates through every subsequent arithmetic step;
all non-finite values are collapsed into the single absorbing element
`nonFinite`.  In the coincident-position scenario the division is `0 / 0`,
whose IEEE result NaN is indeed absorbing for arithmetic. -/
inductive FVal : Type where
  | nonFinite : FVal
  | fin : ℝ → FVal

/-- Addition; any non-finite operand is absorbing. -/
def FVal.add : FVal → FVal → FVal
  | FVal.fin a, FVal.fin b => FVal.fin (a + b)
  | _, _ => FVal.nonFinite

/-- Subtraction; any non-finite operand is absorbing. -/
def FVal.sub : FVal → FVal → FVal
  | FVal.fin a, FVal.fin b => FVal.fin (a - b)
  | _, _ => FVal.nonFinite

/-- Multiplication; any non-finite operand is absorbing. -/
def FVal.mul : FVal → FVal → FVal
  | FVal.fin a, FVal.fin b => FVal.fin (a * b)
  | _, _ => FVal.nonFinite

/-- Division; a zero divisor or any non-finite operand gives `nonFinite`. -/
noncomputable def FVal.div : FVal → FVal → FVal
  | FVal.fin a, FVal.fin b => if b = 0 then FVal.nonFinite else FVal.fin (a / b)
  | _, _ => FVal.nonFinite

/-- Square root; non-finite input is absorbing. -/
noncomputable def FVal.sqrt : FVal → FVal
  | FVal.fin a => FVal.fin (Real.sqrt a)
  | FVal.nonFinite => FVal.nonFinite

instance : Add FVal := ⟨FVal.add⟩

instance : Sub FVal := ⟨FVal.sub⟩

instance : Mul FVal := ⟨FVal.mul⟩

noncomputable instance : Div FVal := ⟨FVal.div⟩

instance (n : ℕ) : OfNat FVal n := ⟨FVal.fin n⟩

@[simp]
theorem FVal.add_nonFinite (a : FVal) : a + FVal.nonFinite = FVal.nonFinite := by
  cases a <;> rfl

@[simp]
theorem FVal.nonFinite_add (a : FVal) : FVal.nonFinite + a = FVal.nonFinite := rfl

@[simp]
theorem FVal.sub_nonFinite (a : FVal) : a - FVal.nonFinite = FVal.nonFinite := by
  cases a <;> rfl

@[simp]
theorem FVal.nonFinite_sub (a : FVal) : FVal.nonFinite - a = FVal.nonFinite := rfl

@[simp]
theorem FVal.mul_nonFinite (a : FVal) : a * FVal.nonFinite = FVal.nonFinite := by
  cases a <;> rfl

@[simp]
theorem FVal.nonFinite_mul (a : FVal) : FVal.nonFinite * a = FVal.nonFinite := rfl

@[simp]
theorem FVal.div_nonFinite (a : FVal) : a / FVal.nonFinite = FVal.nonFinite := by
  cases a <;> rfl

@[simp]
theorem FVal.nonFinite_div (a : FVal) : FVal.nonFinite / a = FVal.nonFinite := rfl

@[simp]
theorem FVal.sqrt_nonFinite : FVal.sqrt FVal.nonFinite = FVal.nonFinite := rfl

@[simp]
theorem FVal.fin_add (a b : ℝ) : FVal.fin a + FVal.fin b = FVal.fin (a + b) := rfl

@[simp]
theorem FVal.fin_sub (a b : ℝ) : FVal.fin a - FVal.fin b = FVal.fin (a - b) := rfl

@[simp]
theorem FVal.fin_mul (a b : ℝ) : FVal.fin a * FVal.fin b = FVal.fin (a * b) := rfl

@[simp]
theorem FVal.sqrt_fin (a : ℝ) : FVal.sqrt (FVal.fin a) = FVal.fin (Real.sqrt a) := rfl

@[simp]
theorem FVal.fin_div_zero (a : ℝ) : FVal.fin a / FVal.fin 0 = FVal.nonFinite := by
  show FVal.div (FVal.fin a) (FVal.fin 0) = FVal.nonFinite
  simp [FVal.div]

theorem FVal.fin_div (a b : ℝ) (hb : b ≠ 0) : FVal.fin a / FVal.fin b = FVal.fin (a / b) := by
  show FVal.div (FVal.fin a) (FVal.fin b) = FVal.fin (a / b)
  simp [FVal.div, hb]

/-- A 3-vector over the degeneracy scalars. -/
structure V3F where
  x : FVal
  y : FVal
  z : FVal

instance : Add V3F :=
  ⟨fun a b => ⟨a.x + b.x, a.y + b.y, a.z + b.z⟩⟩

instance : SMul FVal V3F :=
  ⟨fun c a => ⟨c * a.x, c * a.y, c * a.z⟩⟩

@[simp]
theorem V3F.fv3_add_x (a b : V3F) : (a + b).x = a.x + b.x := rfl

@[simp]
theorem V3F.fv3_add_y (a b : V3F) : (a + b).y = a.y + b.y := rfl

@[simp]
theorem V3F.fv3_add_z (a b : V3F) : (a + b).z = a.z + b.z := rfl

@[simp]
theorem V3F.fv3_smul_x (c : FVal) (a : V3F) : (c • a).x = c * a.x := rfl

@[simp]
theorem V3F.fv3_smul_y (c : FVal) (a : V3F) : (c • a).y = c * a.y := rfl

@[simp]
theorem V3F.fv3_smul_z (c : FVal) (a : V3F) : (c • a).z = c * a.z := rfl

/-- The all-non-finite 3-vector. -/
def nf3 : V3F := ⟨FVal.nonFinite, FVal.nonFinite, FVal.nonFinite⟩

/-- The two-body state over the degeneracy scalars. -/
structure TBStateF where
  p1 : V3F
  p2 : V3F
  v1 : V3F
  v2 : V3F

instance : Add TBStateF :=
  ⟨fun a b => ⟨a.p1 + b.p1, a.p2 + b.p2, a.v1 + b.v1, a.v2 + b.v2⟩⟩

instance : SMul FVal TBStateF :=
  ⟨fun c a => ⟨c • a.p1, c • a.p2, c • a.v1, c • a.v2⟩⟩

@[simp]
theorem TBStateF.ftb_add_p1 (a b : TBStateF) : (a + b).p1 = a.p1 + b.p1 := rfl

@[simp]
theorem TBStateF.ftb_add_p2 (a b : TBStateF) : (a + b).p2 = a.p2 + b.p2 := rfl

@[simp]
theorem TBStateF.ftb_add_v1 (a b : TBStateF) : (a + b).v1 = a.v1 + b.v1 := rfl

@[simp]
theorem TBStateF.ftb_add_v2 (a b : TBStateF) : (a + b).v2 = a.v2 + b.v2 := rfl

@[simp]
theorem TBStateF.ftb_smul_p1 (c : FVal) (a : TBStateF) : (c • a).p1 = c • a.p1 := rfl

@[simp]
theorem TBStateF.ftb_smul_p2 (c : FVal) (a : TBStateF) : (c • a).p2 = c • a.p2 := rfl

@[simp]
theorem TBStateF.ftb_smul_v1 (c : FVal) (a : TBStateF) : (c • a).v1 = c • a.v1 := rfl

@[simp]
theorem TBStateF.ftb_smul_v2 (c : FVal) (a : TBStateF) : (c • a).v2 = c • a.v2 := rfl

/-- The three-body state over the degeneracy scalars. -/
structure ThBStateF where
  p1 : V3F
  p2 : V3F
  p3 : V3F
  v1 : V3F
  v2 : V3F
  v3 : V3F

instance : Add ThBStateF :=
  ⟨fun a b => ⟨a.p1 + b.p1, a.p2 + b.p2, a.p3 + b.p3, a.v1 + b.v1, a.v2 + b.v2, a.v3 + b.v3⟩⟩

instance : SMul FVal ThBStateF :=
  ⟨fun c a => ⟨c • a.p1, c • a.p2, c • a.p3, c • a.v1, c • a.v2, c • a.v3⟩⟩

@[simp]
theorem ThBStateF.fth_add_p1 (a b : ThBStateF) : (a + b).p1 = a.p1 + b.p1 := rfl

@[simp]
theorem ThBStateF.fth_add_p2 (a b : ThBStateF) : (a + b).p2 = a.p2 + b.p2 := rfl

@[simp]
theorem ThBStateF.fth_add_p3 (a b : ThBStateF) : (a + b).p3 = a.p3 + b.p3 := rfl

@[simp]
theorem ThBStateF.fth_add_v1 (a b : ThBStateF) : (a + b).v1 = a.v1 + b.v1 := rfl

@[simp]
theorem ThBStateF.fth_add_v2 (a b : ThBStateF) : (a + b).v2 = a.v2 + b.v2 := rfl

@[simp]
theorem ThBStateF.fth_add_v3 (a b : ThBStateF) : (a + b).v3 = a.v3 + b.v3 := rfl

@[simp]
theorem ThBStateF.fth_smul_p1 (c : FVal) (a : ThBStateF) : (c • a).p1 = c • a.p1 := rfl

@[simp]
theorem ThBStateF.fth_smul_p2 (c : FVal) (a : ThBStateF) : (c • a).p2 = c • a.p2 := rfl

@[simp]
theorem ThBStateF.fth_smul_p3 (c : FVal) (a : ThBStateF) : (c • a).p3 = c • a.p3 := rfl

@[simp]
theorem ThBStateF.fth_smul_v1 (c : FVal) (a : ThBStateF) : (c • a).v1 = c • a.v1 := rfl

@[simp]
theorem ThBStateF.fth_smul_v2 (c : FVal) (a : ThBStateF) : (c • a).v2 = c • a.v2 := rfl

@[simp]
theorem ThBStateF.fth_smul_v3 (c : FVal) (a : ThBStateF) : (c • a).v3 = c • a.v3 := rfl

/-- Modelled from the spec: the pairwise gravitational acceleration term of
the degeneracy model, `G * m * (rOther - rThis) / d * d * d` with
`d = sqrt(sum of squared coordinate differences)`; the division is the
spec's singularity site. -/
noncomputable def gravF (m : FVal) (rThis rOther : V3F) : V3F :=
  let d := FVal.sqrt ((rOther.x - rThis.x) * (rOther.x - rThis.x)
    + (rOther.y - rThis.y) * (rOther.y - rThis.y)
    + (rOther.z - rThis.z) * (rOther.z - rThis.z))
  let d3 := d * d * d
  ⟨FVal.fin G * m * (rOther.x - rThis.x) / d3,
   FVal.fin G * m * (rOther.y - rThis.y) / d3,
   FVal.fin G * m * (rOther.z - rThis.z) / d3⟩

/-- Modelled from the spec: the two-body force model over the degeneracy
scalars, identical in shape to `TwoCoupledBodies`. -/
noncomputable def TwoCoupledBodiesF (massList : List FVal) (s : TBStateF) : TBStateF :=
  ⟨s.v1, s.v2, gravF (massList.getD 1 0) s.p1 s.p2, gravF (massList.getD 0 0) s.p2 s.p1⟩

/-- Modelled from the spec: the three-body force model over the degeneracy
scalars, identical in shape to `ThreeCoupledBodies`. -/
noncomputable def ThreeCoupledBodiesF (massList : List FVal) (s : ThBStateF) : ThBStateF :=
  ⟨s.v1, s.v2, s.v3,
   gravF (massList.getD 1 0) s.p1 s.p2 + gravF (massList.getD 2 0) s.p1 s.p3,
   gravF (massList.getD 0 0) s.p2 s.p1 + gravF (massList.getD 2 0) s.p2 s.p3,
   gravF (massList.getD 0 0) s.p3 s.p1 + gravF (massList.getD 1 0) s.p3 s.p2⟩

/-- Modelled from the spec: `RK4TwoBody` over the degeneracy scalars.  The
step count and time sequence are computed over the reals exactly as in
`RK4TwoBody`; only the state arithmetic runs over `FVal`. -/
noncomputable def RK4TwoBodyF (f : List FVal → TBStateF → TBStateF) (massList : List ℝ)
    (ic : List (List ℝ)) (t0 tn h : ℝ) : List (List (List FVal)) × List ℝ :=
  let steps := stepsOf t0 tn h
  let s0 : TBStateF :=
    ⟨⟨FVal.fin (icG ic 0 0), FVal.fin (icG ic 0 1), FVal.fin (icG ic 0 2)⟩,
     ⟨FVal.fin (icG ic 1 0), FVal.fin (icG ic 1 1), FVal.fin (icG ic 1 2)⟩,
     ⟨FVal.fin (icG ic 2 0), FVal.fin (icG ic 2 1), FVal.fin (icG ic 2 2)⟩,
     ⟨FVal.fin (icG ic 3 0), FVal.fin (icG ic 3 1), FVal.fin (icG ic 3 2)⟩⟩
  let traj := rk4Orbit (f (massList.map FVal.fin)) (FVal.fin h) s0
  ([[(List.range (steps + 1)).map (fun k => (traj k).p1.x),
     (List.range (steps + 1)).map (fun k => (traj k).p1.y),
     (List.range (steps + 1)).map (fun k => (traj k).p1.z)],
    [(List.range (steps + 1)).map (fun k => (traj k).p2.x),
     (List.range (steps + 1)).map (fun k => (traj k).p2.y),
     (List.range (steps + 1)).map (fun k => (traj k).p2.z)],
    [(List.range (steps + 1)).map (fun k => (traj k).v1.x),
     (List.range (steps + 1)).map (fun k => (traj k).v1.y),
     (List.range (steps + 1)).map (fun k => (traj k).v1.z)],
    [(List.range (steps + 1)).map (fun k => (traj k).v2.x),
     (List.range (steps + 1)).map (fun k => (traj k).v2.y),
     (List.range (steps + 1)).map (fun k => (traj k).v2.z)]],
   timeSeq t0 h steps)

/-- Modelled from the spec: `CoupledTwoBodySolver` over the degeneracy
scalars, the exact counterpart of ModelFunctions.py lines 67-72. -/
noncomputable def CoupledTwoBodySolverF (massList : List ℝ) (ic : List (List ℝ))
    (t0 tn : ℝ) : List (List (List FVal)) × List ℝ :=
  RK4TwoBodyF TwoCoupledBodiesF massList ic t0 tn ((tn - t0) / 10000)

end FV

/-- Claim C1: for every state vector, step size `h` and derivative function
`f`, one RK4 step computes `k1 = f(state)`, `k2 = f(state + (h/2)*k1)`,
`k3 = f(state + (h/2)*k2)`, `k4 = f(state + h*k3)` and returns
`state + (h/6)*(k1 + 2*k2 + 2*k3 + k4)`, with all additions and scalar
multiplications element-wise over the full state vector (any dimension `n`,
in particular 2, 12 and 18). -/
theorem rk4Step_elementwise (n : ℕ) (f : (Fin n → ℝ) → (Fin n → ℝ)) (h : ℝ)
    (s : Fin n → ℝ) (i : Fin n) :
    rk4Step f h s i =
      s i + h / 6 *
        (f s i + 2 * f (s + (h / 2) • f s) i
          + 2 * f (s + (h / 2) • f (s + (h / 2) • f s)) i
          + f (s + h • f (s + (h / 2) • f (s + (h / 2) • f s))) i) := by
  simp [rk4Step, Pi.add_apply, Pi.smul_apply, smul_eq_mul]
  ring

/-- Claim C2: `Earth2DModelSolver` computes the step size
`h = (tn - t0) / 1000`, and `CoupledTwoBodySolver` and
`CoupledThreeBodySolver` each compute `h = (tn - t0) / 10000`; in each
solver `h` is computed once and passed unchanged to the RK4 driver call. -/
theorem solver_step_sizes (ic2 : List ℝ) (massList : List ℝ) (ic : List (List ℝ))
    (t0 tn : ℝ) :
    Earth2DModelSolver ic2 t0 tn
        = RK42nd Earth2DForceModel (ic2.getD 0 0) (ic2.getD 1 0) t0 tn ((tn - t0) / 1000)
      ∧ CoupledTwoBodySolver massList ic t0 tn
        = RK4TwoBody TwoCoupledBodies massList ic t0 tn ((tn - t0) / 10000)
      ∧ CoupledThreeBodySolver massList ic t0 tn
        = RK4ThreeBody ThreeCoupledBodies massList ic t0 tn ((tn - t0) / 10000) :=
  ⟨rfl, rfl, rfl⟩

/-- Claim C9: `TwoBodyCanvas.Plot` mutates the caller's masses list whenever
`masses[1] > masses[0]`, swapping the two entries so the heavier mass sits at
index 0 and rebinding the plotted series, names and initial-condition rows to
match; whenever `masses[1] <= masses[0]` the masses list is left unchanged.
After every call the masses list is in descending order. -/
theorem plot_swaps_masses {A B C : Type} (a b : ℚ) (p1 p2 v1 v2 : A) (n1 n2 : B)
    (ic : C × C × C × C) :
    (b > a →
        TwoBodyCanvasPlotSwap [a, b] p1 p2 v1 v2 n1 n2 ic
          = ⟨[b, a], p2, p1, v2, v1, n2, n1, (ic.2.1, ic.1, ic.2.2.2, ic.2.2.1)⟩)
      ∧ (b ≤ a →
        TwoBodyCanvasPlotSwap [a, b] p1 p2 v1 v2 n1 n2 ic
          = ⟨[a, b], p1, p2, v1, v2, n1, n2, ic⟩)
      ∧ (TwoBodyCanvasPlotSwap [a, b] p1 p2 v1 v2 n1 n2 ic).masses.getD 1 0
          ≤ (TwoBodyCanvasPlotSwap [a, b] p1 p2 v1 v2 n1 n2 ic).masses.getD 0 0 := by
  refine ⟨fun hba => ?_, fun hab => ?_, ?_⟩
  · simp [TwoBodyCanvasPlotSwap, hba]
  · simp [TwoBodyCanvasPlotSwap, not_lt.mpr hab]
  · by_cases hc : b > a
    · simp [TwoBodyCanvasPlotSwap, hc]
      exact le_of_lt hc
    · simp [TwoBodyCanvasPlotSwap, hc]
      exact not_lt.mp hc

/-- Witness for C9 at a concrete swapped input. -/
theorem plot_swaps_masses_witness :
    TwoBodyCanvasPlotSwap [(1 : ℚ), 2] (10 : ℕ) 20 30 40 (50 : ℕ) 60
        ((7, 8, 9, 11) : ℕ × ℕ × ℕ × ℕ)
      = ⟨[2, 1], 20, 10, 40, 30, 60, 50, (8, 7, 11, 9)⟩ :=
  (plot_swaps_masses 1 2 10 20 30 40 50 60 (7, 8, 9, 11)).1 (by norm_num)

/-- Claim C10: `TwoBodyWindow.IsPositive` returns `True` exactly when the
value is nonzero (Python truthiness); in particular it returns `True` for
every negative number, so it does not distinguish positive from negative. -/
theorem isPositive_truthiness :
    (∀ v : ℚ, IsPositive v = true ↔ v ≠ 0) ∧ (∀ v : ℚ, v < 0 → IsPositive v = true) := by
  constructor
  · intro v
    simp [IsPositive]
  · intro v hv
    simp [IsPositive]
    exact ne_of_lt hv

/-- Witness for C10 at the negative input -1. -/
theorem isPositive_truthiness_witness : IsPositive (-1) = true :=
  isPositive_truthiness.2 (-1) (by norm_num)

/-- With `h = (tn - t0) / N` and `tn` distinct from `t0`, the driver's step
count recovers `N` exactly. -/
theorem stepsOf_div (t0 tn : ℝ) (N : ℕ) (hN : 0 < N) (hne : tn - t0 ≠ 0) :
    stepsOf t0 tn ((tn - t0) / (N : ℝ)) = N := by
  unfold stepsOf
  have hNne : (N : ℝ) ≠ 0 := Nat.cast_ne_zero.mpr hN.ne'
  have h1 : (tn - t0) / ((tn - t0) / (N : ℝ)) = (N : ℝ) := by
    field_simp
  rw [h1]
  simp

/-- Indexing a mapped range list. -/
theorem getD_map_range {α : Type} (n : ℕ) (f : ℕ → α) (k : ℕ) (hk : k < n) (d : α) :
    ((List.range n).map f).getD k d = f k := by
  rw [List.getD_eq_getElem?_getD, List.getElem?_map, List.getElem?_range hk]
  rfl

/-- Out-of-range indexing a mapped range list gives the default. -/
theorem getD_map_range_ge {α : Type} (n : ℕ) (f : ℕ → α) (k : ℕ) (hk : n ≤ k) (d : α) :
    ((List.range n).map f).getD k d = d := by
  rw [List.getD_eq_getElem?_getD, List.getElem?_map]
  rw [List.getElem?_eq_none (by simpa using hk)]
  rfl

/-- Length of the sampled-time sequence. -/
theorem timeSeq_length (t0 h : ℝ) (steps : ℕ) : (timeSeq t0 h steps).length = steps + 1 := by
  simp [timeSeq]

/-- Sample `k` of the sampled-time sequence is `t0 + k * h`. -/
theorem timeSeq_getD (t0 h : ℝ) (steps k : ℕ) (hk : k ≤ steps) :
    (timeSeq t0 h steps).getD k 0 = t0 + (k : ℝ) * h := by
  unfold timeSeq
  exact getD_map_range _ _ _ (Nat.lt_succ_of_le hk) 0

/-- Claim C3: for `tn > t0` every sequence a solve call returns has length
`stepCount + 1` (1001 for the free-fall solver, 10001 for the two- and
three-body solvers), and the returned time sequence is
`t0, t0 + h, ..., tn`, with sample 0 equal to `t0` and sample `stepCount`
equal to `tn` exactly. -/
theorem solver_sample_counts (ic2 mL2 mL3 : List ℝ) (icM2 icM3 : List (List ℝ))
    (t0 tn : ℝ) (hlt : t0 < tn) :
    ((Earth2DModelSolver ic2 t0 tn).ypos.length = 1001
      ∧ (Earth2DModelSolver ic2 t0 tn).yvelo.length = 1001
      ∧ (Earth2DModelSolver ic2 t0 tn).time.length = 1001
      ∧ (∀ k, k ≤ 1000 →
          (Earth2DModelSolver ic2 t0 tn).time.getD k 0 = t0 + (k : ℝ) * ((tn - t0) / 1000))
      ∧ (Earth2DModelSolver ic2 t0 tn).time.getD 0 0 = t0
      ∧ (Earth2DModelSolver ic2 t0 tn).time.getD 1000 0 = tn)
    ∧ ((∀ l ∈ (CoupledTwoBodySolver mL2 icM2 t0 tn).mass1Pos, l.length = 10001)
      ∧ (∀ l ∈ (CoupledTwoBodySolver mL2 icM2 t0 tn).mass2Pos, l.length = 10001)
      ∧ (∀ l ∈ (CoupledTwoBodySolver mL2 icM2 t0 tn).mass1Vel, l.length = 10001)
      ∧ (∀ l ∈ (CoupledTwoBodySolver mL2 icM2 t0 tn).mass2Vel, l.length = 10001)
      ∧ (CoupledTwoBodySolver mL2 icM2 t0 tn).time.length = 10001
      ∧ (∀ k, k ≤ 10000 →
          (CoupledTwoBodySolver mL2 icM2 t0 tn).time.getD k 0
            = t0 + (k : ℝ) * ((tn - t0) / 10000))
      ∧ (CoupledTwoBodySolver mL2 icM2 t0 tn).time.getD 0 0 = t0
      ∧ (CoupledTwoBodySolver mL2 icM2 t0 tn).time.getD 10000 0 = tn)
    ∧ ((∀ l ∈ (CoupledThreeBodySolver mL3 icM3 t0 tn).mass1Pos, l.length = 10001)
      ∧ (∀ l ∈ (CoupledThreeBodySolver mL3 icM3 t0 tn).mass2Pos, l.length = 10001)
      ∧ (∀ l ∈ (CoupledThreeBodySolver mL3 icM3 t0 tn).mass3Pos, l.length = 10001)
      ∧ (∀ l ∈ (CoupledThreeBodySolver mL3 icM3 t0 tn).mass1Vel, l.length = 10001)
      ∧ (∀ l ∈ (CoupledThreeBodySolver mL3 icM3 t0 tn).mass2Vel, l.length = 10001)
      ∧ (∀ l ∈ (CoupledThreeBodySolver mL3 icM3 t0 tn).mass3Vel, l.length = 10001)
      ∧ (CoupledThreeBodySolver mL3 icM3 t0 tn).timeVals.length = 10001
      ∧ (∀ k, k ≤ 10000 →
          (CoupledThreeBodySolver mL3 icM3 t0 tn).timeVals.getD k 0
            = t0 + (k : ℝ) * ((tn - t0) / 10000))
      ∧ (CoupledThreeBodySolver mL3 icM3 t0 tn).timeVals.getD 0 0 = t0
      ∧ (CoupledThreeBodySolver mL3 icM3 t0 tn).timeVals.getD 10000 0 = tn) := by
  have hne : tn - t0 ≠ 0 := sub_ne_zero.mpr hlt.ne'
  have h1 : stepsOf t0 tn ((tn - t0) / 1000) = 1000 := by
    simpa using stepsOf_div t0 tn 1000 (by norm_num) hne
  have h2 : stepsOf t0 tn ((tn - t0) / 10000) = 10000 := by
    simpa using stepsOf_div t0 tn 10000 (by norm_num) hne
  have hend : t0 + (10000 : ℝ) * ((tn - t0) / 10000) = tn := by
    field_simp
  have hend1 : t0 + (1000 : ℝ) * ((tn - t0) / 1000) = tn := by
    field_simp
  refine ⟨⟨?_, ?_, ?_, ?_, ?_, ?_⟩, ⟨?_, ?_, ?_, ?_, ?_, ?_, ?_, ?_⟩,
    ⟨?_, ?_, ?_, ?_, ?_, ?_, ?_, ?_, ?_, ?_⟩⟩
  · simp [Earth2DModelSolver, RK42nd, h1]
  · simp [Earth2DModelSolver, RK42nd, h1]
  · simp [Earth2DModelSolver, RK42nd, h1, timeSeq_length]
  · intro k hk
    show (timeSeq t0 ((tn - t0) / 1000) (stepsOf t0 tn ((tn - t0) / 1000))).getD k 0 = _
    rw [h1]
    exact timeSeq_getD _ _ _ _ hk
  · show (timeSeq t0 ((tn - t0) / 1000) (stepsOf t0 tn ((tn - t0) / 1000))).getD 0 0 = t0
    rw [h1, timeSeq_getD _ _ _ _ (by norm_num)]
    norm_num
  · show (timeSeq t0 ((tn - t0) / 1000) (stepsOf t0 tn ((tn - t0) / 1000))).getD 1000 0 = tn
    rw [h1, timeSeq_getD _ _ _ _ (by norm_num)]
    push_cast
    exact hend1
  · simp [CoupledTwoBodySolver, RK4TwoBody, h2, List.forall_mem_cons]
  · simp [CoupledTwoBodySolver, RK4TwoBody, h2, List.forall_mem_cons]
  · simp [CoupledTwoBodySolver, RK4TwoBody, h2, List.forall_mem_cons]
  · simp [CoupledTwoBodySolver, RK4TwoBody, h2, List.forall_mem_cons]
  · simp [CoupledTwoBodySolver, RK4TwoBody, h2, timeSeq_length]
  · intro k hk
    show (timeSeq t0 ((tn - t0) / 10000) (stepsOf t0 tn ((tn - t0) / 10000))).getD k 0 = _
    rw [h2]
    exact timeSeq_getD _ _ _ _ hk
  · show (timeSeq t0 ((tn - t0) / 10000) (stepsOf t0 tn ((tn - t0) / 10000))).getD 0 0 = t0
    rw [h2, timeSeq_getD _ _ _ _ (by norm_num)]
    norm_num
  · show (timeSeq t0 ((tn - t0) / 10000) (stepsOf t0 tn ((tn - t0) / 10000))).getD 10000 0 = tn
    rw [h2, timeSeq_getD _ _ _ _ (by norm_num)]
    push_cast
    exact hend
  · simp [CoupledThreeBodySolver, RK4ThreeBody, h2, List.forall_mem_cons]
  · simp [CoupledThreeBodySolver, RK4ThreeBody, h2, List.forall_mem_cons]
  · simp [CoupledThreeBodySolver, RK4ThreeBody, h2, List.forall_mem_cons]
  · simp [CoupledThreeBodySolver, RK4ThreeBody, h2, List.forall_mem_cons]
  · simp [CoupledThreeBodySolver, RK4ThreeBody, h2, List.forall_mem_cons]
  · simp [CoupledThreeBodySolver, RK4ThreeBody, h2, List.forall_mem_cons]
  · simp [CoupledThreeBodySolver, RK4ThreeBody, h2, timeSeq_length]
  · intro k hk
    show (timeSeq t0 ((tn - t0) / 10000) (stepsOf t0 tn ((tn - t0) / 10000))).getD k 0 = _
    rw [h2]
    exact timeSeq_getD _ _ _ _ hk
  · show (timeSeq t0 ((tn - t0) / 10000) (stepsOf t0 tn ((tn - t0) / 10000))).getD 0 0 = t0
    rw [h2, timeSeq_getD _ _ _ _ (by norm_num)]
    norm_num
  · show (timeSeq t0 ((tn - t0) / 10000) (stepsOf t0 tn ((tn - t0) / 10000))).getD 10000 0 = tn
    rw [h2, timeSeq_getD _ _ _ _ (by norm_num)]
    push_cast
    exact hend

/-- Witness for C3 at the concrete time domain `t0 = 0`, `tn = 1`. -/
theorem solver_sample_counts_witness :
    (Earth2DModelSolver [] 0 1).time.length = 1001 :=
  ((solver_sample_counts [] [] [] [] [] 0 1 (by norm_num)).1).2.2.1

/-- Claim C4: for masses and a state with nonzero pairwise separations, the
two-body force model returns each body's acceleration as
`G * otherMass * (otherPosition - thisPosition) / |otherPosition - thisPosition|^3`
together with the current velocities as position derivatives, and the
three-body force model returns each body's acceleration as the sum of this
pairwise term over the other two bodies. -/
theorem force_model_formulas (m1 m2 m3 : ℝ) (s : TBState) (t : ThBState)
    (h12 : (s.p2.x - s.p1.x) ^ 2 + (s.p2.y - s.p1.y) ^ 2 + (s.p2.z - s.p1.z) ^ 2 ≠ 0)
    (u12 : (t.p2.x - t.p1.x) ^ 2 + (t.p2.y - t.p1.y) ^ 2 + (t.p2.z - t.p1.z) ^ 2 ≠ 0)
    (u13 : (t.p3.x - t.p1.x) ^ 2 + (t.p3.y - t.p1.y) ^ 2 + (t.p3.z - t.p1.z) ^ 2 ≠ 0)
    (u23 : (t.p3.x - t.p2.x) ^ 2 + (t.p3.y - t.p2.y) ^ 2 + (t.p3.z - t.p2.z) ^ 2 ≠ 0) :
    TwoCoupledBodies [m1, m2] s
      = ⟨s.v1, s.v2,
        ⟨G * m2 * (s.p2.x - s.p1.x)
            / Real.sqrt ((s.p2.x - s.p1.x) ^ 2 + (s.p2.y - s.p1.y) ^ 2 + (s.p2.z - s.p1.z) ^ 2) ^ 3,
         G * m2 * (s.p2.y - s.p1.y)
            / Real.sqrt ((s.p2.x - s.p1.x) ^ 2 + (s.p2.y - s.p1.y) ^ 2 + (s.p2.z - s.p1.z) ^ 2) ^ 3,
         G * m2 * (s.p2.z - s.p1.z)
            / Real.sqrt ((s.p2.x - s.p1.x) ^ 2 + (s.p2.y - s.p1.y) ^ 2 + (s.p2.z - s.p1.z) ^ 2) ^ 3⟩,
        ⟨G * m1 * (s.p1.x - s.p2.x)
            / Real.sqrt ((s.p1.x - s.p2.x) ^ 2 + (s.p1.y - s.p2.y) ^ 2 + (s.p1.z - s.p2.z) ^ 2) ^ 3,
         G * m1 * (s.p1.y - s.p2.y)
            / Real.sqrt ((s.p1.x - s.p2.x) ^ 2 + (s.p1.y - s.p2.y) ^ 2 + (s.p1.z - s.p2.z) ^ 2) ^ 3,
         G * m1 * (s.p1.z - s.p2.z)
            / Real.sqrt ((s.p1.x - s.p2.x) ^ 2 + (s.p1.y - s.p2.y) ^ 2 + (s.p1.z - s.p2.z) ^ 2) ^ 3⟩⟩
    ∧ ThreeCoupledBodies [m1, m2, m3] t
      = ⟨t.v1, t.v2, t.v3,
        grav m2 t.p1 t.p2 + grav m3 t.p1 t.p3,
        grav m1 t.p2 t.p1 + grav m3 t.p2 t.p3,
        grav m1 t.p3 t.p1 + grav m2 t.p3 t.p2⟩
    ∧ (∀ m : ℝ, ∀ pThis pOther : V3,
        grav m pThis pOther
          = ⟨G * m * (pOther.x - pThis.x)
              / Real.sqrt ((pOther.x - pThis.x) ^ 2 + (pOther.y - pThis.y) ^ 2
                + (pOther.z - pThis.z) ^ 2) ^ 3,
             G * m * (pOther.y - pThis.y)
              / Real.sqrt ((pOther.x - pThis.x) ^ 2 + (pOther.y - pThis.y) ^ 2
                + (pOther.z - pThis.z) ^ 2) ^ 3,
             G * m * (pOther.z - pThis.z)
              / Real.sqrt ((pOther.x - pThis.x) ^ 2 + (pOther.y - pThis.y) ^ 2
                + (pOther.z - pThis.z) ^ 2) ^ 3⟩) :=
  ⟨rfl, rfl, fun _ _ _ => rfl⟩

/-- Witness for C4 at a concrete non-degenerate configuration. -/
theorem force_model_formulas_witness :
    TwoCoupledBodies [3, 5]
        ⟨⟨0, 0, 0⟩, ⟨1, 0, 0⟩, ⟨0, 0, 0⟩, ⟨0, 0, 0⟩⟩
      = ⟨⟨0, 0, 0⟩, ⟨0, 0, 0⟩,
        ⟨G * 5 * ((1 : ℝ) - 0) / Real.sqrt (((1 : ℝ) - 0) ^ 2 + ((0 : ℝ) - 0) ^ 2 + ((0 : ℝ) - 0) ^ 2) ^ 3,
         G * 5 * ((0 : ℝ) - 0) / Real.sqrt (((1 : ℝ) - 0) ^ 2 + ((0 : ℝ) - 0) ^ 2 + ((0 : ℝ) - 0) ^ 2) ^ 3,
         G * 5 * ((0 : ℝ) - 0) / Real.sqrt (((1 : ℝ) - 0) ^ 2 + ((0 : ℝ) - 0) ^ 2 + ((0 : ℝ) - 0) ^ 2) ^ 3⟩,
        ⟨G * 3 * ((0 : ℝ) - 1) / Real.sqrt (((0 : ℝ) - 1) ^ 2 + ((0 : ℝ) - 0) ^ 2 + ((0 : ℝ) - 0) ^ 2) ^ 3,
         G * 3 * ((0 : ℝ) - 0) / Real.sqrt (((0 : ℝ) - 1) ^ 2 + ((0 : ℝ) - 0) ^ 2 + ((0 : ℝ) - 0) ^ 2) ^ 3,
         G * 3 * ((0 : ℝ) - 0) / Real.sqrt (((0 : ℝ) - 1) ^ 2 + ((0 : ℝ) - 0) ^ 2 + ((0 : ℝ) - 0) ^ 2) ^ 3⟩⟩ :=
  (force_model_formulas 3 5 7
      ⟨⟨0, 0, 0⟩, ⟨1, 0, 0⟩, ⟨0, 0, 0⟩, ⟨0, 0, 0⟩⟩
      ⟨⟨0, 0, 0⟩, ⟨1, 0, 0⟩, ⟨0, 2, 0⟩, ⟨0, 0, 0⟩, ⟨0, 0, 0⟩, ⟨0, 0, 0⟩⟩
      (by norm_num) (by norm_num) (by norm_num) (by norm_num)).1

@[simp]
theorem V3.smul_zero_v (c : ℝ) : c • (0 : V3) = 0 := by
  rw [V3.ext_iff]
  simp

@[simp]
theorem V3.add_zero_v (a : V3) : a + 0 = a := by
  rw [V3.ext_iff]
  simp

@[simp]
theorem V3.zero_add_v (a : V3) : 0 + a = a := by
  rw [V3.ext_iff]
  simp

/-- Separation distance is symmetric in the two positions. -/
theorem sep_comm (a b : V3) : sep a b = sep b a := by
  unfold sep
  congr 1
  ring

/-- One RK4 step written with the four stages spelled out. -/
theorem rk4Step_def {R : Type} {a : Type} [Add a] [SMul R a] [Div R] [OfNat R 2] [OfNat R 6]
    (f : a → a) (h : R) (s : a) :
    rk4Step f h s
      = s + (h / 6) •
        (f s + (2 : R) • f (s + (h / 2) • f s)
          + (2 : R) • f (s + (h / 2) • f (s + (h / 2) • f s))
          + f (s + h • f (s + (h / 2) • f (s + (h / 2) • f s)))) := rfl

/-- Total system momentum of a two-body state, the mass-weighted sum of the
velocity slots. -/
noncomputable def mom2 (m1 m2 : ℝ) (s : TBState) : V3 :=
  m1 • s.v1 + m2 • s.v2

/-- Total system momentum of a three-body state. -/
noncomputable def mom3 (m1 m2 m3 : ℝ) (t : ThBState) : V3 :=
  m1 • t.v1 + m2 • t.v2 + m3 • t.v3

/-- Newton's third law for the modelled two-body force: the mass-weighted
sum of the accelerations vanishes at every state. -/
theorem mom2_force (m1 m2 : ℝ) (s : TBState) :
    mom2 m1 m2 (TwoCoupledBodies [m1, m2] s) = 0 := by
  rw [V3.ext_iff]
  refine ⟨?_, ?_, ?_⟩ <;>
    · simp [mom2, TwoCoupledBodies, grav, mEl]
      rw [sep_comm s.p2 s.p1]
      ring

/-- Newton's third law for the modelled three-body force. -/
theorem mom3_force (m1 m2 m3 : ℝ) (t : ThBState) :
    mom3 m1 m2 m3 (ThreeCoupledBodies [m1, m2, m3] t) = 0 := by
  rw [V3.ext_iff]
  refine ⟨?_, ?_, ?_⟩ <;>
    · simp [mom3, ThreeCoupledBodies, grav, mEl]
      rw [sep_comm t.p2 t.p1, sep_comm t.p3 t.p1, sep_comm t.p3 t.p2]
      ring

/-- Momentum is additive in the state. -/
theorem mom2_add (m1 m2 : ℝ) (s t : TBState) :
    mom2 m1 m2 (s + t) = mom2 m1 m2 s + mom2 m1 m2 t := by
  rw [V3.ext_iff]
  refine ⟨?_, ?_, ?_⟩ <;> simp [mom2] <;> ring

/-- Momentum scales with the state. -/
theorem mom2_smul (m1 m2 c : ℝ) (s : TBState) :
    mom2 m1 m2 (c • s) = c • mom2 m1 m2 s := by
  rw [V3.ext_iff]
  refine ⟨?_, ?_, ?_⟩ <;> simp [mom2] <;> ring

/-- Momentum is additive in the state (three bodies). -/
theorem mom3_add (m1 m2 m3 : ℝ) (s t : ThBState) :
    mom3 m1 m2 m3 (s + t) = mom3 m1 m2 m3 s + mom3 m1 m2 m3 t := by
  rw [V3.ext_iff]
  refine ⟨?_, ?_, ?_⟩ <;> simp [mom3] <;> ring

/-- Momentum scales with the state (three bodies). -/
theorem mom3_smul (m1 m2 m3 c : ℝ) (s : ThBState) :
    mom3 m1 m2 m3 (c • s) = c • mom3 m1 m2 m3 s := by
  rw [V3.ext_iff]
  refine ⟨?_, ?_, ?_⟩ <;> simp [mom3] <;> ring

/-- One RK4 step of the two-body model conserves total momentum exactly:
every stage derivative has vanishing mass-weighted acceleration sum. -/
theorem mom2_rk4 (m1 m2 h : ℝ) (s : TBState) :
    mom2 m1 m2 (rk4Step (TwoCoupledBodies [m1, m2]) h s) = mom2 m1 m2 s := by
  rw [rk4Step_def]
  simp [mom2_add, mom2_smul, mom2_force]

/-- One RK4 step of the three-body model conserves total momentum exactly. -/
theorem mom3_rk4 (m1 m2 m3 h : ℝ) (s : ThBState) :
    mom3 m1 m2 m3 (rk4Step (ThreeCoupledBodies [m1, m2, m3]) h s) = mom3 m1 m2 m3 s := by
  rw [rk4Step_def]
  simp [mom3_add, mom3_smul, mom3_force]

/-- Total momentum of the two-body RK4 trajectory is constant in the sample
index. -/
theorem mom2_orbit (m1 m2 h : ℝ) (s0 : TBState) (k : ℕ) :
    mom2 m1 m2 (rk4Orbit (TwoCoupledBodies [m1, m2]) h s0 k) = mom2 m1 m2 s0 := by
  induction k with
  | zero => rfl
  | succ n ih =>
    rw [rk4Orbit] at ih ⊢
    rw [Function.iterate_succ_apply', mom2_rk4]
    exact ih

/-- Total momentum of the three-body RK4 trajectory is constant in the
sample index. -/
theorem mom3_orbit (m1 m2 m3 h : ℝ) (s0 : ThBState) (k : ℕ) :
    mom3 m1 m2 m3 (rk4Orbit (ThreeCoupledBodies [m1, m2, m3]) h s0 k) = mom3 m1 m2 m3 s0 := by
  induction k with
  | zero => rfl
  | succ n ih =>
    rw [rk4Orbit] at ih ⊢
    rw [Function.iterate_succ_apply', mom3_rk4]
    exact ih

@[simp]
theorem rk4Orbit_zero {R : Type} {a : Type} [Add a] [SMul R a] [Div R] [OfNat R 2] [OfNat R 6]
    (f : a → a) (h : R) (s0 : a) : rk4Orbit f h s0 0 = s0 := rfl

/-- Claim C5: for every two-body and three-body run, the total system
momentum computed from the returned velocity sequences (each spatial
component, mass-weighted sum over the bodies) is the same at every one of
the `stepCount + 1` trajectory samples as at sample 0; in the exact-real
model it is conserved exactly. -/
theorem momentum_conserved (m1 m2 m3 : ℝ) (icM2 icM3 : List (List ℝ)) (t0 tn : ℝ)
    (hlt : t0 < tn) (k : ℕ) (hk : k ≤ 10000) :
    (m1 * (((CoupledTwoBodySolver [m1, m2] icM2 t0 tn).mass1Vel.getD 0 []).getD k 0)
        + m2 * (((CoupledTwoBodySolver [m1, m2] icM2 t0 tn).mass2Vel.getD 0 []).getD k 0)
      = m1 * (((CoupledTwoBodySolver [m1, m2] icM2 t0 tn).mass1Vel.getD 0 []).getD 0 0)
        + m2 * (((CoupledTwoBodySolver [m1, m2] icM2 t0 tn).mass2Vel.getD 0 []).getD 0 0))
    ∧ (m1 * (((CoupledTwoBodySolver [m1, m2] icM2 t0 tn).mass1Vel.getD 1 []).getD k 0)
        + m2 * (((CoupledTwoBodySolver [m1, m2] icM2 t0 tn).mass2Vel.getD 1 []).getD k 0)
      = m1 * (((CoupledTwoBodySolver [m1, m2] icM2 t0 tn).mass1Vel.getD 1 []).getD 0 0)
        + m2 * (((CoupledTwoBodySolver [m1, m2] icM2 t0 tn).mass2Vel.getD 1 []).getD 0 0))
    ∧ (m1 * (((CoupledTwoBodySolver [m1, m2] icM2 t0 tn).mass1Vel.getD 2 []).getD k 0)
        + m2 * (((CoupledTwoBodySolver [m1, m2] icM2 t0 tn).mass2Vel.getD 2 []).getD k 0)
      = m1 * (((CoupledTwoBodySolver [m1, m2] icM2 t0 tn).mass1Vel.getD 2 []).getD 0 0)
        + m2 * (((CoupledTwoBodySolver [m1, m2] icM2 t0 tn).mass2Vel.getD 2 []).getD 0 0))
    ∧ (m1 * (((CoupledThreeBodySolver [m1, m2, m3] icM3 t0 tn).mass1Vel.getD 0 []).getD k 0)
        + m2 * (((CoupledThreeBodySolver [m1, m2, m3] icM3 t0 tn).mass2Vel.getD 0 []).getD k 0)
        + m3 * (((CoupledThreeBodySolver [m1, m2, m3] icM3 t0 tn).mass3Vel.getD 0 []).getD k 0)
      = m1 * (((CoupledThreeBodySolver [m1, m2, m3] icM3 t0 tn).mass1Vel.getD 0 []).getD 0 0)
        + m2 * (((CoupledThreeBodySolver [m1, m2, m3] icM3 t0 tn).mass2Vel.getD 0 []).getD 0 0)
        + m3 * (((CoupledThreeBodySolver [m1, m2, m3] icM3 t0 tn).mass3Vel.getD 0 []).getD 0 0))
    ∧ (m1 * (((CoupledThreeBodySolver [m1, m2, m3] icM3 t0 tn).mass1Vel.getD 1 []).getD k 0)
        + m2 * (((CoupledThreeBodySolver [m1, m2, m3] icM3 t0 tn).mass2Vel.getD 1 []).getD k 0)
        + m3 * (((CoupledThreeBodySolver [m1, m2, m3] icM3 t0 tn).mass3Vel.getD 1 []).getD k 0)
      = m1 * (((CoupledThreeBodySolver [m1, m2, m3] icM3 t0 tn).mass1Vel.getD 1 []).getD 0 0)
        + m2 * (((CoupledThreeBodySolver [m1, m2, m3] icM3 t0 tn).mass2Vel.getD 1 []).getD 0 0)
        + m3 * (((CoupledThreeBodySolver [m1, m2, m3] icM3 t0 tn).mass3Vel.getD 1 []).getD 0 0))
    ∧ (m1 * (((CoupledThreeBodySolver [m1, m2, m3] icM3 t0 tn).mass1Vel.getD 2 []).getD k 0)
        + m2 * (((CoupledThreeBodySolver [m1, m2, m3] icM3 t0 tn).mass2Vel.getD 2 []).getD k 0)
        + m3 * (((CoupledThreeBodySolver [m1, m2, m3] icM3 t0 tn).mass3Vel.getD 2 []).getD k 0)
      = m1 * (((CoupledThreeBodySolver [m1, m2, m3] icM3 t0 tn).mass1Vel.getD 2 []).getD 0 0)
        + m2 * (((CoupledThreeBodySolver [m1, m2, m3] icM3 t0 tn).mass2Vel.getD 2 []).getD 0 0)
        + m3 * (((CoupledThreeBodySolver [m1, m2, m3] icM3 t0 tn).mass3Vel.getD 2 []).getD 0 0)) := by
  have hne : tn - t0 ≠ 0 := sub_ne_zero.mpr hlt.ne'
  have h2 : stepsOf t0 tn ((tn - t0) / 10000) = 10000 := by
    simpa using stepsOf_div t0 tn 10000 (by norm_num) hne
  have hk1 : k < 10001 := Nat.lt_succ_of_le hk
  have h01 : (0 : ℕ) < 10001 := by norm_num
  have hmx := congrArg V3.x (mom2_orbit m1 m2 ((tn - t0) / 10000) (icTB icM2) k)
  have hmy := congrArg V3.y (mom2_orbit m1 m2 ((tn - t0) / 10000) (icTB icM2) k)
  have hmz := congrArg V3.z (mom2_orbit m1 m2 ((tn - t0) / 10000) (icTB icM2) k)
  have hnx := congrArg V3.x (mom3_orbit m1 m2 m3 ((tn - t0) / 10000) (icThB icM3) k)
  have hny := congrArg V3.y (mom3_orbit m1 m2 m3 ((tn - t0) / 10000) (icThB icM3) k)
  have hnz := congrArg V3.z (mom3_orbit m1 m2 m3 ((tn - t0) / 10000) (icThB icM3) k)
  simp only [mom2, mom3, V3.v3_add_x, V3.v3_add_y, V3.v3_add_z, V3.v3_smul_x, V3.v3_smul_y, V3.v3_smul_z]
    at hmx hmy hmz hnx hny hnz
  refine ⟨?_, ?_, ?_, ?_, ?_, ?_⟩ <;>
    simp [CoupledTwoBodySolver, CoupledThreeBodySolver, RK4TwoBody, RK4ThreeBody, h2,
      List.getElem?_range hk1, List.getElem?_range h01, hmx, hmy, hmz, hnx, hny, hnz]

/-- Witness for C5 at a concrete run. -/
theorem momentum_conserved_witness :
    (3 : ℝ) * (((CoupledTwoBodySolver [3, 5] [[0, 0, 0], [1, 0, 0], [0, 1, 0], [0, 0, 1]] 0 1).mass1Vel.getD 0 []).getD 7 0)
        + 5 * (((CoupledTwoBodySolver [3, 5] [[0, 0, 0], [1, 0, 0], [0, 1, 0], [0, 0, 1]] 0 1).mass2Vel.getD 0 []).getD 7 0)
      = 3 * (((CoupledTwoBodySolver [3, 5] [[0, 0, 0], [1, 0, 0], [0, 1, 0], [0, 0, 1]] 0 1).mass1Vel.getD 0 []).getD 0 0)
        + 5 * (((CoupledTwoBodySolver [3, 5] [[0, 0, 0], [1, 0, 0], [0, 1, 0], [0, 0, 1]] 0 1).mass2Vel.getD 0 []).getD 0 0) :=
  (momentum_conserved 3 5 7 [[0, 0, 0], [1, 0, 0], [0, 1, 0], [0, 0, 1]]
      [[0, 0, 0], [1, 0, 0], [0, 1, 0], [0, 0, 1], [0, 0, 0], [0, 0, 0]] 0 1
      (by norm_num) 7 (by norm_num)).1

/-- Exchanging the two bodies of a two-body state. -/
def swapTB (s : TBState) : TBState :=
  ⟨s.p2, s.p1, s.v2, s.v1⟩

/-- The two-body force model is equivariant under exchanging the bodies
together with their masses. -/
theorem swap_force (m1 m2 : ℝ) (s : TBState) :
    TwoCoupledBodies [m2, m1] (swapTB s) = swapTB (TwoCoupledBodies [m1, m2] s) := rfl

/-- One RK4 step is equivariant under the body exchange. -/
theorem swap_rk4 (m1 m2 h : ℝ) (s : TBState) :
    rk4Step (TwoCoupledBodies [m2, m1]) h (swapTB s)
      = swapTB (rk4Step (TwoCoupledBodies [m1, m2]) h s) := rfl

/-- The whole RK4 trajectory is equivariant under the body exchange. -/
theorem swap_orbit (m1 m2 h : ℝ) (s0 : TBState) (k : ℕ) :
    rk4Orbit (TwoCoupledBodies [m2, m1]) h (swapTB s0) k
      = swapTB (rk4Orbit (TwoCoupledBodies [m1, m2]) h s0 k) := by
  induction k with
  | zero => rfl
  | succ n ih =>
    have hL : rk4Orbit (TwoCoupledBodies [m2, m1]) h (swapTB s0) (n + 1)
        = rk4Step (TwoCoupledBodies [m2, m1]) h
            (rk4Orbit (TwoCoupledBodies [m2, m1]) h (swapTB s0) n) :=
      Function.iterate_succ_apply' _ _ _
    have hR : rk4Orbit (TwoCoupledBodies [m1, m2]) h s0 (n + 1)
        = rk4Step (TwoCoupledBodies [m1, m2]) h
            (rk4Orbit (TwoCoupledBodies [m1, m2]) h s0 n) :=
      Function.iterate_succ_apply' _ _ _
    rw [hL, hR, ih, swap_rk4]

/-- Claim C6: calling the two-body solver with the two bodies' mass,
position and velocity inputs swapped yields the mirrored trajectory: the
body-1 outputs of the swapped call are the body-2 outputs of the original
call at every sample, and vice versa, with the same time sequence. -/
theorem two_body_swap_symmetry (m1 m2 a1 a2 a3 b1 b2 b3 c1 c2 c3 d1 d2 d3 t0 tn : ℝ) :
    CoupledTwoBodySolver [m2, m1]
        [[b1, b2, b3], [a1, a2, a3], [d1, d2, d3], [c1, c2, c3]] t0 tn
      = ⟨(CoupledTwoBodySolver [m1, m2]
            [[a1, a2, a3], [b1, b2, b3], [c1, c2, c3], [d1, d2, d3]] t0 tn).mass2Pos,
         (CoupledTwoBodySolver [m1, m2]
            [[a1, a2, a3], [b1, b2, b3], [c1, c2, c3], [d1, d2, d3]] t0 tn).mass1Pos,
         (CoupledTwoBodySolver [m1, m2]
            [[a1, a2, a3], [b1, b2, b3], [c1, c2, c3], [d1, d2, d3]] t0 tn).mass2Vel,
         (CoupledTwoBodySolver [m1, m2]
            [[a1, a2, a3], [b1, b2, b3], [c1, c2, c3], [d1, d2, d3]] t0 tn).mass1Vel,
         (CoupledTwoBodySolver [m1, m2]
            [[a1, a2, a3], [b1, b2, b3], [c1, c2, c3], [d1, d2, d3]] t0 tn).time⟩ := by
  have hic : icTB [[b1, b2, b3], [a1, a2, a3], [d1, d2, d3], [c1, c2, c3]]
      = swapTB (icTB [[a1, a2, a3], [b1, b2, b3], [c1, c2, c3], [d1, d2, d3]]) := rfl
  simp only [CoupledTwoBodySolver, RK4TwoBody, hic, swap_orbit]
  rfl

/-- Claim C8: for every two-body and three-body solve (with `tn > t0`),
each returned per-body position and velocity result is component-major: a
list of exactly three entries where index 0 is the x time series, index 1
the y series and index 2 the z series, each a series of length
`stepCount + 1 = 10001`. -/
theorem component_major_layout (mL2 mL3 : List ℝ) (icM2 icM3 : List (List ℝ))
    (t0 tn : ℝ) (hlt : t0 < tn) :
    ((CoupledTwoBodySolver mL2 icM2 t0 tn).mass1Pos.length = 3
      ∧ (CoupledTwoBodySolver mL2 icM2 t0 tn).mass2Pos.length = 3
      ∧ (CoupledTwoBodySolver mL2 icM2 t0 tn).mass1Vel.length = 3
      ∧ (CoupledTwoBodySolver mL2 icM2 t0 tn).mass2Vel.length = 3
      ∧ (CoupledThreeBodySolver mL3 icM3 t0 tn).mass1Pos.length = 3
      ∧ (CoupledThreeBodySolver mL3 icM3 t0 tn).mass2Pos.length = 3
      ∧ (CoupledThreeBodySolver mL3 icM3 t0 tn).mass3Pos.length = 3
      ∧ (CoupledThreeBodySolver mL3 icM3 t0 tn).mass1Vel.length = 3
      ∧ (CoupledThreeBodySolver mL3 icM3 t0 tn).mass2Vel.length = 3
      ∧ (CoupledThreeBodySolver mL3 icM3 t0 tn).mass3Vel.length = 3)
    ∧ ((∀ l ∈ (CoupledTwoBodySolver mL2 icM2 t0 tn).mass1Pos, l.length = 10001)
      ∧ (∀ l ∈ (CoupledTwoBodySolver mL2 icM2 t0 tn).mass2Pos, l.length = 10001)
      ∧ (∀ l ∈ (CoupledTwoBodySolver mL2 icM2 t0 tn).mass1Vel, l.length = 10001)
      ∧ (∀ l ∈ (CoupledTwoBodySolver mL2 icM2 t0 tn).mass2Vel, l.length = 10001)
      ∧ (∀ l ∈ (CoupledThreeBodySolver mL3 icM3 t0 tn).mass1Pos, l.length = 10001)
      ∧ (∀ l ∈ (CoupledThreeBodySolver mL3 icM3 t0 tn).mass2Pos, l.length = 10001)
      ∧ (∀ l ∈ (CoupledThreeBodySolver mL3 icM3 t0 tn).mass3Pos, l.length = 10001)
      ∧ (∀ l ∈ (CoupledThreeBodySolver mL3 icM3 t0 tn).mass1Vel, l.length = 10001)
      ∧ (∀ l ∈ (CoupledThreeBodySolver mL3 icM3 t0 tn).mass2Vel, l.length = 10001)
      ∧ (∀ l ∈ (CoupledThreeBodySolver mL3 icM3 t0 tn).mass3Vel, l.length = 10001))
    ∧ ((CoupledTwoBodySolver mL2 icM2 t0 tn).mass1Pos
        = [(List.range 10001).map
            (fun k => (rk4Orbit (TwoCoupledBodies mL2) ((tn - t0) / 10000) (icTB icM2) k).p1.x),
           (List.range 10001).map
            (fun k => (rk4Orbit (TwoCoupledBodies mL2) ((tn - t0) / 10000) (icTB icM2) k).p1.y),
           (List.range 10001).map
            (fun k => (rk4Orbit (TwoCoupledBodies mL2) ((tn - t0) / 10000) (icTB icM2) k).p1.z)]
      ∧ (CoupledTwoBodySolver mL2 icM2 t0 tn).mass2Pos
        = [(List.range 10001).map
            (fun k => (rk4Orbit (TwoCoupledBodies mL2) ((tn - t0) / 10000) (icTB icM2) k).p2.x),
           (List.range 10001).map
            (fun k => (rk4Orbit (TwoCoupledBodies mL2) ((tn - t0) / 10000) (icTB icM2) k).p2.y),
           (List.range 10001).map
            (fun k => (rk4Orbit (TwoCoupledBodies mL2) ((tn - t0) / 10000) (icTB icM2) k).p2.z)]
      ∧ (CoupledTwoBodySolver mL2 icM2 t0 tn).mass1Vel
        = [(List.range 10001).map
            (fun k => (rk4Orbit (TwoCoupledBodies mL2) ((tn - t0) / 10000) (icTB icM2) k).v1.x),
           (List.range 10001).map
            (fun k => (rk4Orbit (TwoCoupledBodies mL2) ((tn - t0) / 10000) (icTB icM2) k).v1.y),
           (List.range 10001).map
            (fun k => (rk4Orbit (TwoCoupledBodies mL2) ((tn - t0) / 10000) (icTB icM2) k).v1.z)]
      ∧ (CoupledTwoBodySolver mL2 icM2 t0 tn).mass2Vel
        = [(List.range 10001).map
            (fun k => (rk4Orbit (TwoCoupledBodies mL2) ((tn - t0) / 10000) (icTB icM2) k).v2.x),
           (List.range 10001).map
            (fun k => (rk4Orbit (TwoCoupledBodies mL2) ((tn - t0) / 10000) (icTB icM2) k).v2.y),
           (List.range 10001).map
            (fun k => (rk4Orbit (TwoCoupledBodies mL2) ((tn - t0) / 10000) (icTB icM2) k).v2.z)]
      ∧ (CoupledThreeBodySolver mL3 icM3 t0 tn).mass1Pos
        = [(List.range 10001).map
            (fun k => (rk4Orbit (ThreeCoupledBodies mL3) ((tn - t0) / 10000) (icThB icM3) k).p1.x),
           (List.range 10001).map
            (fun k => (rk4Orbit (ThreeCoupledBodies mL3) ((tn - t0) / 10000) (icThB icM3) k).p1.y),
           (List.range 10001).map
            (fun k => (rk4Orbit (ThreeCoupledBodies mL3) ((tn - t0) / 10000) (icThB icM3) k).p1.z)]
      ∧ (CoupledThreeBodySolver mL3 icM3 t0 tn).mass2Pos
        = [(List.range 10001).map
            (fun k => (rk4Orbit (ThreeCoupledBodies mL3) ((tn - t0) / 10000) (icThB icM3) k).p2.x),
           (List.range 10001).map
            (fun k => (rk4Orbit (ThreeCoupledBodies mL3) ((tn - t0) / 10000) (icThB icM3) k).p2.y),
           (List.range 10001).map
            (fun k => (rk4Orbit (ThreeCoupledBodies mL3) ((tn - t0) / 10000) (icThB icM3) k).p2.z)]
      ∧ (CoupledThreeBodySolver mL3 icM3 t0 tn).mass3Pos
        = [(List.range 10001).map
            (fun k => (rk4Orbit (ThreeCoupledBodies mL3) ((tn - t0) / 10000) (icThB icM3) k).p3.x),
           (List.range 10001).map
            (fun k => (rk4Orbit (ThreeCoupledBodies mL3) ((tn - t0) / 10000) (icThB icM3) k).p3.y),
           (List.range 10001).map
            (fun k => (rk4Orbit (ThreeCoupledBodies mL3) ((tn - t0) / 10000) (icThB icM3) k).p3.z)]
      ∧ (CoupledThreeBodySolver mL3 icM3 t0 tn).mass1Vel
        = [(List.range 10001).map
            (fun k => (rk4Orbit (ThreeCoupledBodies mL3) ((tn - t0) / 10000) (icThB icM3) k).v1.x),
           (List.range 10001).map
            (fun k => (rk4Orbit (ThreeCoupledBodies mL3) ((tn - t0) / 10000) (icThB icM3) k).v1.y),
           (List.range 10001).map
            (fun k => (rk4Orbit (ThreeCoupledBodies mL3) ((tn - t0) / 10000) (icThB icM3) k).v1.z)]
      ∧ (CoupledThreeBodySolver mL3 icM3 t0 tn).mass2Vel
        = [(List.range 10001).map
            (fun k => (rk4Orbit (ThreeCoupledBodies mL3) ((tn - t0) / 10000) (icThB icM3) k).v2.x),
           (List.range 10001).map
            (fun k => (rk4Orbit (ThreeCoupledBodies mL3) ((tn - t0) / 10000) (icThB icM3) k).v2.y),
           (List.range 10001).map
            (fun k => (rk4Orbit (ThreeCoupledBodies mL3) ((tn - t0) / 10000) (icThB icM3) k).v2.z)]
      ∧ (CoupledThreeBodySolver mL3 icM3 t0 tn).mass3Vel
        = [(List.range 10001).map
            (fun k => (rk4Orbit (ThreeCoupledBodies mL3) ((tn - t0) / 10000) (icThB icM3) k).v3.x),
           (List.range 10001).map
            (fun k => (rk4Orbit (ThreeCoupledBodies mL3) ((tn - t0) / 10000) (icThB icM3) k).v3.y),
           (List.range 10001).map
            (fun k => (rk4Orbit (ThreeCoupledBodies mL3) ((tn - t0) / 10000) (icThB icM3) k).v3.z)]) := by
  have hne : tn - t0 ≠ 0 := sub_ne_zero.mpr hlt.ne'
  have h2 : stepsOf t0 tn ((tn - t0) / 10000) = 10000 := by
    simpa using stepsOf_div t0 tn 10000 (by norm_num) hne
  refine ⟨⟨?_, ?_, ?_, ?_, ?_, ?_, ?_, ?_, ?_, ?_⟩, ⟨?_, ?_, ?_, ?_, ?_, ?_, ?_, ?_, ?_, ?_⟩,
    ⟨?_, ?_, ?_, ?_, ?_, ?_, ?_, ?_, ?_, ?_⟩⟩ <;>
    simp [CoupledTwoBodySolver, CoupledThreeBodySolver, RK4TwoBody, RK4ThreeBody, h2,
      List.forall_mem_cons]

/-- Witness for C8 at a concrete run. -/
theorem component_major_layout_witness :
    (CoupledTwoBodySolver [3, 5] [[0, 0, 0], [1, 0, 0], [0, 1, 0], [0, 0, 1]] 0 1).mass1Pos.length
      = 3 :=
  (component_major_layout [3, 5] [2, 3, 4] [[0, 0, 0], [1, 0, 0], [0, 1, 0], [0, 0, 1]]
      [[0, 0, 0], [1, 0, 0], [0, 2, 0], [0, 0, 0], [0, 0, 0], [0, 0, 0]] 0 1 (by norm_num)).1.1

attribute [ext] FV.V3F FV.TBStateF FV.ThBStateF

namespace FV

@[simp]
theorem FVal.div_fin_zero (x : FVal) : x / FVal.fin 0 = FVal.nonFinite := by
  cases x
  · rfl
  · show FVal.div _ _ = _
    simp [FVal.div]

/-- The all-non-finite two-body state. -/
def nfTB : TBStateF := ⟨nf3, nf3, nf3, nf3⟩

@[simp]
theorem nf3_x : nf3.x = FVal.nonFinite := rfl

@[simp]
theorem nf3_y : nf3.y = FVal.nonFinite := rfl

@[simp]
theorem nf3_z : nf3.z = FVal.nonFinite := rfl

@[simp]
theorem nfTB_p1 : nfTB.p1 = nf3 := rfl

@[simp]
theorem nfTB_p2 : nfTB.p2 = nf3 := rfl

@[simp]
theorem nfTB_v1 : nfTB.v1 = nf3 := rfl

@[simp]
theorem nfTB_v2 : nfTB.v2 = nf3 := rfl

/-- The pairwise acceleration term at two coincident finite positions is
all-non-finite: the separation is exactly zero and the division by its cube
is a division by zero. -/
theorem gravF_coincident (m : FVal) (a b c : ℝ) :
    gravF m ⟨FVal.fin a, FVal.fin b, FVal.fin c⟩ ⟨FVal.fin a, FVal.fin b, FVal.fin c⟩
      = nf3 := by
  ext <;> simp [gravF]

/-- A non-finite state stays non-finite under any further RK4 step: the
state enters the update sum and absorbs it. -/
theorem rk4Step_nf (f : TBStateF → TBStateF) (h : FVal) :
    rk4Step f h nfTB = nfTB := by
  ext <;> simp [rk4Step]

set_option maxHeartbeats 1000000 in
/-- One RK4 step from a state with coincident (finite) body positions makes
every component of the state non-finite: the zero separation makes both
stage-1 accelerations non-finite, which contaminates the stage-2 position
derivatives, and the weighted update sum then absorbs non-finiteness into
all twelve components. -/
theorem rk4Step_coincident (mL : List FVal) (h a b c v1x v1y v1z v2x v2y v2z : ℝ) :
    rk4Step (TwoCoupledBodiesF mL) (FVal.fin h)
      ⟨⟨FVal.fin a, FVal.fin b, FVal.fin c⟩, ⟨FVal.fin a, FVal.fin b, FVal.fin c⟩,
       ⟨FVal.fin v1x, FVal.fin v1y, FVal.fin v1z⟩, ⟨FVal.fin v2x, FVal.fin v2y, FVal.fin v2z⟩⟩
      = nfTB := by
  ext <;> simp [rk4Step, TwoCoupledBodiesF, gravF]

/-- The all-non-finite three-body state. -/
def nfThB : ThBStateF := ⟨nf3, nf3, nf3, nf3, nf3, nf3⟩

@[simp]
theorem nfThB_p1 : nfThB.p1 = nf3 := rfl

@[simp]
theorem nfThB_p2 : nfThB.p2 = nf3 := rfl

@[simp]
theorem nfThB_p3 : nfThB.p3 = nf3 := rfl

@[simp]
theorem nfThB_v1 : nfThB.v1 = nf3 := rfl

@[simp]
theorem nfThB_v2 : nfThB.v2 = nf3 := rfl

@[simp]
theorem nfThB_v3 : nfThB.v3 = nf3 := rfl

/-- Modelled from the spec: `RK4ThreeBody` over the degeneracy scalars,
mirroring `RK4ThreeBody`. -/
noncomputable def RK4ThreeBodyF (f : List FVal → ThBStateF → ThBStateF) (massList : List ℝ)
    (ic : List (List ℝ)) (t0 tn h : ℝ) : List (List (List FVal)) × List ℝ :=
  let steps := stepsOf t0 tn h
  let s0 : ThBStateF :=
    ⟨⟨FVal.fin (icG ic 0 0), FVal.fin (icG ic 0 1), FVal.fin (icG ic 0 2)⟩,
     ⟨FVal.fin (icG ic 1 0), FVal.fin (icG ic 1 1), FVal.fin (icG ic 1 2)⟩,
     ⟨FVal.fin (icG ic 2 0), FVal.fin (icG ic 2 1), FVal.fin (icG ic 2 2)⟩,
     ⟨FVal.fin (icG ic 3 0), FVal.fin (icG ic 3 1), FVal.fin (icG ic 3 2)⟩,
     ⟨FVal.fin (icG ic 4 0), FVal.fin (icG ic 4 1), FVal.fin (icG ic 4 2)⟩,
     ⟨FVal.fin (icG ic 5 0), FVal.fin (icG ic 5 1), FVal.fin (icG ic 5 2)⟩⟩
  let traj := rk4Orbit (f (massList.map FVal.fin)) (FVal.fin h) s0
  ([[(List.range (steps + 1)).map (fun k => (traj k).p1.x),
     (List.range (steps + 1)).map (fun k => (traj k).p1.y),
     (List.range (steps + 1)).map (fun k => (traj k).p1.z)],
    [(List.range (steps + 1)).map (fun k => (traj k).p2.x),
     (List.range (steps + 1)).map (fun k => (traj k).p2.y),
     (List.range (steps + 1)).map (fun k => (traj k).p2.z)],
    [(List.range (steps + 1)).map (fun k => (traj k).p3.x),
     (List.range (steps + 1)).map (fun k => (traj k).p3.y),
     (List.range (steps + 1)).map (fun k => (traj k).p3.z)],
    [(List.range (steps + 1)).map (fun k => (traj k).v1.x),
     (List.range (steps + 1)).map (fun k => (traj k).v1.y),
     (List.range (steps + 1)).map (fun k => (traj k).v1.z)],
    [(List.range (steps + 1)).map (fun k => (traj k).v2.x),
     (List.range (steps + 1)).map (fun k => (traj k).v2.y),
     (List.range (steps + 1)).map (fun k => (traj k).v2.z)],
    [(List.range (steps + 1)).map (fun k => (traj k).v3.x),
     (List.range (steps + 1)).map (fun k => (traj k).v3.y),
     (List.range (steps + 1)).map (fun k => (traj k).v3.z)]],
   timeSeq t0 h steps)

/-- Modelled from the spec: `CoupledThreeBodySolver` over the degeneracy
scalars, the exact counterpart of ModelFunctions.py lines 102-107. -/
noncomputable def CoupledThreeBodySolverF (massList : List ℝ) (ic : List (List ℝ))
    (t0 tn : ℝ) : List (List (List FVal)) × List ℝ :=
  RK4ThreeBodyF ThreeCoupledBodiesF massList ic t0 tn ((tn - t0) / 10000)

/-- A non-finite three-body state stays non-finite under any further RK4
step. -/
theorem rk4Step_nf3 (f : ThBStateF → ThBStateF) (h : FVal) :
    rk4Step f h nfThB = nfThB := by
  ext <;> simp [rk4Step]

set_option maxHeartbeats 2000000 in
/-- One RK4 step of the three-body model from a state with all three
(finite) body positions coincident makes every component non-finite. -/
theorem rk4Step_coincident3 (mL : List FVal) (h a b c w1x w1y w1z w2x w2y w2z w3x w3y w3z : ℝ) :
    rk4Step (ThreeCoupledBodiesF mL) (FVal.fin h)
      ⟨⟨FVal.fin a, FVal.fin b, FVal.fin c⟩, ⟨FVal.fin a, FVal.fin b, FVal.fin c⟩,
       ⟨FVal.fin a, FVal.fin b, FVal.fin c⟩,
       ⟨FVal.fin w1x, FVal.fin w1y, FVal.fin w1z⟩, ⟨FVal.fin w2x, FVal.fin w2y, FVal.fin w2z⟩,
       ⟨FVal.fin w3x, FVal.fin w3y, FVal.fin w3z⟩⟩
      = nfThB := by
  ext <;> simp [rk4Step, ThreeCoupledBodiesF, gravF]

/-- Once the first RK4 step degenerates, every later sample of the two-body
trajectory is all-non-finite. -/
theorem rk4Orbit_nf (f : TBStateF → TBStateF) (h : FVal) (s0 : TBStateF)
    (h1 : rk4Step f h s0 = nfTB) (k : ℕ) (hk : 1 ≤ k) :
    rk4Orbit f h s0 k = nfTB := by
  induction k with
  | zero => exact absurd hk (by norm_num)
  | succ n ih =>
    have hs : rk4Orbit f h s0 (n + 1) = rk4Step f h (rk4Orbit f h s0 n) :=
      Function.iterate_succ_apply' _ _ _
    rw [hs]
    rcases Nat.eq_zero_or_pos n with h0 | hpos
    · subst h0
      exact h1
    · rw [ih hpos, rk4Step_nf]

/-- Once the first RK4 step degenerates, every later sample of the
three-body trajectory is all-non-finite. -/
theorem rk4Orbit_nf3 (f : ThBStateF → ThBStateF) (h : FVal) (s0 : ThBStateF)
    (h1 : rk4Step f h s0 = nfThB) (k : ℕ) (hk : 1 ≤ k) :
    rk4Orbit f h s0 k = nfThB := by
  induction k with
  | zero => exact absurd hk (by norm_num)
  | succ n ih =>
    have hs : rk4Orbit f h s0 (n + 1) = rk4Step f h (rk4Orbit f h s0 n) :=
      Function.iterate_succ_apply' _ _ _
    rw [hs]
    rcases Nat.eq_zero_or_pos n with h0 | hpos
    · subst h0
      exact h1
    · rw [ih hpos, rk4Step_nf3]

/-- In the three-body force model, a state in which bodies 1 and 2 coincide
(at finite positions) gets all-non-finite accelerations for both coincident
bodies, whatever the position of body 3. -/
theorem threeBodyForce_pair_coincident (mL : List FVal) (a b c : ℝ) (q w1 w2 w3 : V3F) :
    (ThreeCoupledBodiesF mL
        ⟨⟨FVal.fin a, FVal.fin b, FVal.fin c⟩, ⟨FVal.fin a, FVal.fin b, FVal.fin c⟩,
         q, w1, w2, w3⟩).v1 = nf3
      ∧ (ThreeCoupledBodiesF mL
        ⟨⟨FVal.fin a, FVal.fin b, FVal.fin c⟩, ⟨FVal.fin a, FVal.fin b, FVal.fin c⟩,
         q, w1, w2, w3⟩).v2 = nf3 := by
  constructor <;> ext <;> simp [ThreeCoupledBodiesF, gravF]

end FV

set_option maxHeartbeats 2000000 in
/-- Claim C7: the solvers and force models validate nothing and take no
recovery branch (they are total functions of their numeric inputs, for any
masses including non-positive ones and any time domain with `tn` distinct
from `t0`); a zero pairwise separation produces a division by zero whose
non-finite result propagates through every subsequent step and shows up
transparently in every component of every returned trajectory sample after
the first, for the two-body solver, for the three-body solver with
coincident bodies, and for the three-body force model at any coincident
pair. -/
theorem singularity_propagates
    (m1 m2 m3 px py pz v1x v1y v1z v2x v2y v2z w1x w1y w1z w2x w2y w2z w3x w3y w3z t0 tn : ℝ)
    (hne : tn ≠ t0) (k : ℕ) (hk1 : 1 ≤ k) (hk : k ≤ 10000) :
    (∀ s c : ℕ, s ≤ 3 → c ≤ 2 →
      (((FV.CoupledTwoBodySolverF [m1, m2]
            [[px, py, pz], [px, py, pz], [v1x, v1y, v1z], [v2x, v2y, v2z]]
            t0 tn).1.getD s []).getD c []).getD k (FV.FVal.fin 0)
        = FV.FVal.nonFinite)
    ∧ (∀ s c : ℕ, s ≤ 5 → c ≤ 2 →
      (((FV.CoupledThreeBodySolverF [m1, m2, m3]
            [[px, py, pz], [px, py, pz], [px, py, pz],
             [w1x, w1y, w1z], [w2x, w2y, w2z], [w3x, w3y, w3z]]
            t0 tn).1.getD s []).getD c []).getD k (FV.FVal.fin 0)
        = FV.FVal.nonFinite)
    ∧ (∀ mL : List FV.FVal, ∀ q w1 w2 w3 : FV.V3F,
      (FV.ThreeCoupledBodiesF mL
          ⟨⟨FV.FVal.fin px, FV.FVal.fin py, FV.FVal.fin pz⟩,
           ⟨FV.FVal.fin px, FV.FVal.fin py, FV.FVal.fin pz⟩, q, w1, w2, w3⟩).v1 = FV.nf3
        ∧ (FV.ThreeCoupledBodiesF mL
          ⟨⟨FV.FVal.fin px, FV.FVal.fin py, FV.FVal.fin pz⟩,
           ⟨FV.FVal.fin px, FV.FVal.fin py, FV.FVal.fin pz⟩, q, w1, w2, w3⟩).v2 = FV.nf3) := by
  have hsub : tn - t0 ≠ 0 := sub_ne_zero.mpr hne
  have h2 : stepsOf t0 tn ((tn - t0) / 10000) = 10000 := by
    simpa using stepsOf_div t0 tn 10000 (by norm_num) hsub
  have hkk : k < 10001 := Nat.lt_succ_of_le hk
  have horb := FV.rk4Orbit_nf _ _ _
    (FV.rk4Step_coincident [FV.FVal.fin m1, FV.FVal.fin m2] ((tn - t0) / 10000)
      px py pz v1x v1y v1z v2x v2y v2z) k hk1
  have horb3 := FV.rk4Orbit_nf3 _ _ _
    (FV.rk4Step_coincident3 [FV.FVal.fin m1, FV.FVal.fin m2, FV.FVal.fin m3] ((tn - t0) / 10000)
      px py pz w1x w1y w1z w2x w2y w2z w3x w3y w3z) k hk1
  refine ⟨?_, ?_, ?_⟩
  · intro s c hs hc
    interval_cases s <;> interval_cases c <;>
      simp [FV.CoupledTwoBodySolverF, FV.RK4TwoBodyF, icG, h2, List.getElem?_range hkk, horb]
  · intro s c hs hc
    interval_cases s <;> interval_cases c <;>
      simp [FV.CoupledThreeBodySolverF, FV.RK4ThreeBodyF, icG, h2, List.getElem?_range hkk, horb3]
  · intro mL q w1 w2 w3
    exact FV.threeBodyForce_pair_coincident mL px py pz q w1 w2 w3

/-- Witness for C7 at a concrete degenerate input: both bodies at the
origin, sample 1 of the body-1 x position series is non-finite. -/
theorem singularity_propagates_witness :
    (((FV.CoupledTwoBodySolverF [(3 : ℝ), 5]
          [[0, 0, 0], [0, 0, 0], [1, 0, 0], [0, 1, 0]] 0 1).1.getD 0 []).getD 0 []).getD 1
        (FV.FVal.fin 0)
      = FV.FVal.nonFinite :=
  (singularity_propagates 3 5 7 0 0 0 1 0 0 0 1 0 0 0 0 0 0 0 0 0 0 0 1
      (by norm_num) 1 (by norm_num) (by norm_num)).1 0 0 (by norm_num) (by norm_num)
